import Mathlib

/-!
Verification of the device session registry and command/response correlation
engine of a small operator console (source: src/app_improved.py).

The Python source is shallowly embedded below.  The global dictionary
`connected_clients_sio` (line 39) is embedded as an insertion-ordered
association list `Registry` whose keys are unique connection handles (SIDs),
matching CPython dict semantics: assignment to a present key replaces the
value in place, assignment to an absent key appends, and lookup returns the
first entry with the key.  Outbound socket emissions and calls into the GUI
object are embedded as explicit `Emit` / `Event` values so that theorems can
speak about what the engine surfaces to its observers.
-/

set_option maxHeartbeats 1000000

namespace C2Panel

/-! ### Identity sanitizer (lines 80 to 88 and 301 to 303) -/

/-- Python character predicate `str.isalnum`, modelled exactly for code
points below 0x100: the ASCII alphanumerics, the Latin-1 letters
(0xAA, 0xB5, 0xBA and 0xC0 to 0xFF except the multiplication and division
signs 0xD7 and 0xF7) and the Latin-1 numeric characters (0xB2, 0xB3, 0xB9,
0xBC, 0xBD, 0xBE).  Code points of 0x100 and above are conservatively
classified as not alphanumeric; no theorem below depends on those. -/
def pyIsAlnum (c : Char) : Bool :=
  c.isAlphanum ||
  (0xC0 ≤ c.toNat && c.toNat ≤ 0xFF && !(c.toNat == 0xD7) && !(c.toNat == 0xF7)) ||
  c.toNat == 0xAA || c.toNat == 0xB5 || c.toNat == 0xBA ||
  c.toNat == 0xB2 || c.toNat == 0xB3 || c.toNat == 0xB9 ||
  c.toNat == 0xBC || c.toNat == 0xBD || c.toNat == 0xBE

/-- The keep condition of the device-id sanitizer, line 81:
`c.isalnum() or c in ["_", "-", "."]`. -/
def allowedChar (c : Char) : Bool :=
  pyIsAlnum c || c == '_' || c == '-' || c == '.'

/-- One character of the substitution on line 81. -/
def sanitizeChar (c : Char) : Char :=
  if allowedChar c then c else '_'

/-- The character-by-character substitution of lines 80 to 82 (identical on
lines 301 to 303). -/
def sanitize (raw : String) : String :=
  String.mk (raw.data.map sanitizeChar)

/-- Python `str.lower`, modelled for ASCII (sufficient here: it only feeds
the comparison against the three ASCII strings of `degenerateKeys`, and
lowercasing never maps a non-ASCII character onto an ASCII one). -/
def pyLower (s : String) : String :=
  String.mk (s.data.map Char.toLower)

/-- The degenerate fallback patterns of lines 83 to 87. -/
def degenerateKeys : List String :=
  ["unknown_model_unknown_device", "_", "unknown_device_unknown_model"]

/-! ### Python values appearing in JSON payloads -/

/-- A fragment of the Python value universe, enough to express the dynamic
typing of the JSON payload fields that the handlers inspect. -/
inductive PyVal where
  | vstr (s : String)
  | vint (n : Int)
  | vbool (b : Bool)
  | vnone
deriving DecidableEq

/-- Python truthiness for the embedded values. -/
def PyVal.truthy : PyVal → Bool
  | .vstr s => !(s == "")
  | .vint n => !(n == 0)
  | .vbool b => b
  | .vnone => false

/-- Python `isinstance(v, str)`. -/
def PyVal.isStr : PyVal → Bool
  | .vstr _ => true
  | _ => false

/-- Python `len` on a string value (only evaluated on strings in the code
being modelled, so the other constructors are arbitrary). -/
def PyVal.strLen : PyVal → Nat
  | .vstr s => s.length
  | _ => 0

/-- The underlying string of a string value. -/
def PyVal.strVal : PyVal → String
  | .vstr s => s
  | _ => ""

/-! ### The initial-data upload endpoint (lines 49 to 128) -/

/-- The fields of the initial-data JSON payload that the key derivation on
lines 66 to 88 reads: `deviceId`, and `deviceInfo.model` /
`deviceInfo.deviceName` (string-valued by the agent protocol; a missing
`deviceInfo` dict makes both fields absent, exactly as
`data.get("deviceInfo", {})` does). -/
structure InitialPayload where
  deviceId : Option PyVal
  model : Option String
  deviceName : Option String
deriving DecidableEq

/-- Lines 66 to 78: the raw identifier used for sanitization.  The guard is
`not raw_device_id or not isinstance(raw_device_id, str) or
len(raw_device_id) < 5`. -/
def rawDeviceId (p : InitialPayload) : String :=
  let rid := p.deviceId.getD PyVal.vnone
  if rid.truthy = false ∨ rid.isStr = false ∨ rid.strLen < 5 then
    (p.model.getD "unknown_model") ++ "_" ++ (p.deviceName.getD "unknown_device")
  else
    rid.strVal

/-- Lines 80 to 88: the sanitized storage key of the initial-data upload.
`ts` stands in for `datetime.datetime.now().strftime` with microsecond
precision, a string of decimal digits. -/
def uploadInitialDataKey (p : InitialPayload) (ts : String) : String :=
  let s := sanitize (rawDeviceId p)
  if s = "" ∨ pyLower s ∈ degenerateKeys then
    "unidentified_device_" ++ ts
  else s

/-- Lines 294 to 303: key derivation of the command-file upload endpoint.
`request.form.get("deviceId")` is `none` when the field is absent; the
falsiness check on line 297 also rejects the empty string, answering 400
(modelled as `none`) in both cases. -/
def uploadCommandFileKey (deviceId : Option String) : Option String :=
  let d := deviceId.getD ""
  if d = "" then none else some (sanitize d)

/-! ### Session registry (global dict on line 39) -/

/-- One value of `connected_clients_sio` as built on lines 179 to 187 (the
redundant `sid` field of the Python dict is the association key itself). -/
structure ClientInfo where
  id : String
  nameDisplay : String
  platform : String
  ip : String
  connectedAt : String
  lastSeen : String
deriving DecidableEq

/-- The registry: insertion-ordered handle-to-session mapping. -/
abbrev Registry := List (String × ClientInfo)

/-- Dict lookup `connected_clients_sio.get(sid)` / `in` membership test. -/
def lookupSid (r : Registry) (sid : String) : Option ClientInfo :=
  (r.find? (fun p => p.1 == sid)).map Prod.snd

/-- Dict assignment `connected_clients_sio[sid] = info`: replaces in place
if the key is present, appends otherwise. -/
def assign : Registry → String → ClientInfo → Registry
  | [], sid, info => [(sid, info)]
  | p :: rest, sid, info =>
      if p.1 = sid then (sid, info) :: rest else p :: assign rest sid info

/-- Line 220 to 222: `connected_clients_sio[sid]["last_seen"] = now`,
mutating only that field of the entry for `sid`. -/
def touchLastSeen (now : String) : Registry → String → Registry
  | [], _ => []
  | p :: rest, sid =>
      if p.1 = sid then (p.1, { p.2 with lastSeen := now }) :: rest
      else p :: touchLastSeen now rest sid

/-! ### Outbound emissions and GUI notifications -/

/-- An argument bag of a dispatched command (a Python dict of scalars). -/
abbrev ArgsBag := List (String × PyVal)

/-- Everything the SocketIO handlers push outward: socket emissions
(`emit` / `socketio.emit`) and calls into the GUI object. -/
inductive Emit where
  | registrationFailed (sid : String)
  | registrationSuccessful (sid : String)
  | requestRegistrationInfo (sid : String)
  | toClient (sid : String) (command : String) (args : ArgsBag)
  | guiLiveListChanged
  | guiLiveItemChanged (sid : String)
  | guiLog (msg : String)
  | guiErrorBox (msg : String)
  | guiEnableCommands
deriving DecidableEq

/-- Python slice `s[:n]`. -/
def pyTake (s : String) (n : Nat) : String :=
  String.mk (s.data.take n)

/-- Lines 160 to 213, `register_device`.  `selectedHist` models the GUI
field `current_selected_historical_device_id` read on line 202.  The final
Bool records whether the handler closed the underlying connection; the code
contains no disconnect call, so it is `false` on every path.  The falsiness
check on line 168 rejects a missing `deviceId` and an empty one. -/
def handleRegisterDevice (r : Registry) (sid ip now : String)
    (deviceId deviceName platform : Option String) (selectedHist : Option String) :
    Registry × List Emit × Bool :=
  let nameDisplay := deviceName.getD ("Device_" ++ pyTake sid 6)
  let plat := platform.getD "Unknown"
  match deviceId with
  | none => (r, [Emit.registrationFailed sid], false)
  | some did =>
    if did = "" then (r, [Emit.registrationFailed sid], false)
    else
      let info : ClientInfo :=
        { id := did, nameDisplay := nameDisplay, platform := plat,
          ip := ip, connectedAt := now, lastSeen := now }
      (assign r sid info,
       [Emit.registrationSuccessful sid, Emit.guiLiveListChanged,
        Emit.guiLog ("Device " ++ nameDisplay ++ " (ID: " ++ did ++ ") connected")] ++
       (if selectedHist = some did then [Emit.guiEnableCommands] else []),
       false)

/-- Lines 216 to 229, `device_heartbeat`.  The Bool records which branch
ran: `true` when the handle was known (the touch contract return value),
`false` when the handler fell through to requesting registration. -/
def handleDeviceHeartbeat (r : Registry) (sid now : String) :
    Registry × List Emit × Bool :=
  match lookupSid r sid with
  | some _ => (touchLastSeen now r sid, [Emit.guiLiveItemChanged sid], true)
  | none => (r, [Emit.requestRegistrationInfo sid], false)

/-- Lines 233 to 256, `send_command_to_client`.  The Python signature
defaults `args` to `{}` when `None` is passed. -/
def sendCommandToClient (r : Registry) (sid command : String) (args : Option ArgsBag) :
    Bool × List Emit :=
  let a := args.getD []
  match lookupSid r sid with
  | some info =>
      (true, [Emit.toClient sid command a,
              Emit.guiLog ("Sent command " ++ command ++ " to device " ++ info.id)])
  | none =>
      (false, [Emit.guiLog ("Target SID " ++ sid ++ " not found for command " ++ command),
               Emit.guiErrorBox ("Device (SID: " ++ sid ++ ") is not connected")])

/-- The transport sends among a list of emissions (`socketio.emit` calls
addressed to a client). -/
def transportSends (l : List Emit) : List (String × String × ArgsBag) :=
  l.filterMap (fun e => match e with
    | Emit.toClient s c a => some (s, c, a)
    | _ => none)

/-! ### Response / upload correlation (lines 260 to 356) -/

/-- Lines 263 to 268: resolve a connection handle to a device identifier,
falling back to a handle-derived placeholder. -/
def resolveDeviceId (r : Registry) (sid : String) : String :=
  match lookupSid r sid with
  | some info => info.id
  | none => "SID_" ++ sid

/-- The fields of a `command_response` payload (lines 270 to 272):
`command` and `status` are strings by the agent protocol; `payload` is a
dict. -/
structure ResponseData where
  command : Option String
  status : Option String
  payload : List (String × PyVal)
deriving DecidableEq

/-- Observable panel-side effects of the two ingestion paths: system-log
lines, the display of a command response (the
`gui_app.display_command_response` call with its arguments), refreshes of a
device detail view, and refreshes of the historical device list. -/
inductive Event where
  | sysLog (msg : String) (isError : Bool)
  | responseShown (deviceId command status : String) (payload : List (String × PyVal))
  | detailsRefreshed (deviceId : String)
  | histListRefreshed
deriving DecidableEq

/-- The mutable state the two ingestion paths touch: the registry (read
only here), the on-disk per-device folders (`received_data`), the GUI
selection they read, and the stream of surfaced events. -/
structure PanelState where
  registry : Registry
  folders : List (String × List String)
  selectedHist : Option String
  events : List Event
deriving DecidableEq

/-- Lines 260 to 287, `command_response`: the handler never writes the
registry or the disk; it resolves the device identifier, then surfaces the
response.  The detail view refresh happens when the payload carries
`filename_on_server` and that device is the selected one (lines 282 to
286). -/
def handleCommandResponseEvents (r : Registry) (selectedHist : Option String)
    (sid : String) (d : ResponseData) : List Event :=
  let dev := resolveDeviceId r sid
  let cmd := d.command.getD "unknown_command"
  let status := d.status.getD "unknown"
  [Event.sysLog ("Response for " ++ cmd ++ " from " ++ dev ++ ": " ++ status) false,
   Event.responseShown dev cmd status d.payload] ++
  (if d.payload.any (fun q => q.1 == "filename_on_server") ∧ selectedHist = some dev
   then [Event.detailsRefreshed dev] else [])

/-- The state transformer of the `command_response` handler. -/
def handleCommandResponse (st : PanelState) (sid : String) (d : ResponseData) : PanelState :=
  { st with events := st.events ++ handleCommandResponseEvents st.registry st.selectedHist sid d }

/-- Line 318: `"".join(c if c.isalnum() else "_" for c in command_ref)`. -/
def safeCommandRef (ref : String) : String :=
  String.mk (ref.data.map (fun c => if pyIsAlnum c then c else '_'))

/-- `os.makedirs(..., exist_ok=True)` for a device folder. -/
def ensureFolder : List (String × List String) → String → List (String × List String)
  | [], dev => [(dev, [])]
  | p :: rest, dev => if p.1 = dev then p :: rest else p :: ensureFolder rest dev

/-- Saving a file into a device folder (creating the folder if needed). -/
def addFile : List (String × List String) → String → String → List (String × List String)
  | [], dev, fname => [(dev, [fname])]
  | p :: rest, dev, fname =>
      if p.1 = dev then (p.1, p.2 ++ [fname]) :: rest else p :: addFile rest dev fname

/-- The files stored under a device folder (empty when the folder does not
exist). -/
def folderFiles (fs : List (String × List String)) (dev : String) : List String :=
  ((fs.find? (fun p => p.1 == dev)).map Prod.snd).getD []

/-- `os.path.exists` for a device folder. -/
def hasFolder (fs : List (String × List String)) (dev : String) : Bool :=
  (fs.find? (fun p => p.1 == dev)).isSome

/-- Line 319: the stored filename.  `base` and `ext` are the two halves of
`os.path.splitext(basename)`; line 315 to 316 default an empty extension to
`.dat`; `ts` stands in for the `strftime` timestamp. -/
def commandFileName (cref base ext ts : String) : String :=
  safeCommandRef cref ++ "_" ++ base ++ "_" ++ ts ++ (if ext = "" then ".dat" else ext)

/-- Lines 290 to 356, `upload_command_file`, as a function of the state
fragments it touches: the folders and the GUI selection.  Returns the new
folders, the surfaced events, and the HTTP-level result
(`filename_on_server` on success, `none` on a 400 answer).  Note the code
creates the device folder (line 307) before checking that a file was sent,
so the folder exists even on the missing-file 400 path. -/
def uploadCommandFileCore (fs : List (String × List String)) (selectedHist : Option String)
    (deviceId commandRef : Option String) (file : Option (String × String)) (ts : String) :
    List (String × List String) × List Event × Option String :=
  let d := deviceId.getD ""
  if d = "" then (fs, [Event.sysLog "deviceId missing in command file upload" true], none)
  else
    let key := sanitize d
    let cref := commandRef.getD "unknown_cmd_ref"
    let ev1 := if hasFolder fs key then [] else [Event.histListRefreshed]
    let fs1 := ensureFolder fs key
    match file with
    | none => (fs1, ev1 ++ [Event.sysLog "no file data in upload_command_file request" true], none)
    | some (base, ext) =>
      let fname := commandFileName cref base ext ts
      let fs2 := addFile fs1 key fname
      let ev2 := [Event.sysLog ("Received file " ++ fname ++ " from device " ++ key) false] ++
                 (if selectedHist = some key then [Event.detailsRefreshed key] else [])
      (fs2, ev1 ++ ev2, some fname)

/-- The state transformer of the `upload_command_file` endpoint. -/
def uploadCommandFile (st : PanelState) (deviceId commandRef : Option String)
    (file : Option (String × String)) (ts : String) : PanelState × Option String :=
  let r := uploadCommandFileCore st.folders st.selectedHist deviceId commandRef file ts
  ({ st with folders := r.1, events := st.events ++ r.2.1 }, r.2.2)

/-- Extracts a displayed command response from an event. -/
def respOf : Event → Option (String × String × String × List (String × PyVal))
  | .responseShown dev cmd status payload => some (dev, cmd, status, payload)
  | _ => none

/-- The command responses a late-arriving observer of the event stream can
discover in a state. -/
def responsesShown (st : PanelState) : List (String × String × String × List (String × PyVal)) :=
  st.events.filterMap respOf

/-! ### GUI lookups by device identifier (lines 656 to 698) -/

/-- Lines 665 to 670 and 686 to 691: scan `connected_clients_sio` in
iteration (= insertion) order and stop at the first session whose `id`
matches the device identifier. -/
def findSidByDeviceId (r : Registry) (devId : String) : Option String :=
  (r.find? (fun p => p.2.id == devId)).map Prod.fst

/-- Modelled from the amended claim text: the earliest-registered matching
session, by explicit recursion over insertion order. -/
def firstRegisteredMatch : Registry → String → Option String
  | [], _ => none
  | p :: rest, devId =>
      if p.2.id = devId then some p.1 else firstRegisteredMatch rest devId

/-- Modelled from the claim text of C1: the ASCII character class
`[A-Za-z0-9_.-]`. -/
def asciiAllowedChar (c : Char) : Bool :=
  ('A' ≤ c && c ≤ 'Z') || ('a' ≤ c && c ≤ 'z') || ('0' ≤ c && c ≤ '9') ||
  c == '_' || c == '.' || c == '-'

/-! ### Concrete fixtures used by counterexamples and witnesses -/

/-- Two live sessions carrying the same device identifier, registered in
the order sidA then sidB (both through the real registration handler). -/
def demoRegistry : Registry :=
  (handleRegisterDevice
    (handleRegisterDevice [] "sidA" "10.0.0.1" "t1" (some "dev") (some "A") (some "android") none).1
    "sidB" "10.0.0.2" "t2" (some "dev") (some "B") (some "android") none).1

/-- The session record the registration handler builds for sidA. -/
def demoInfoA : ClientInfo :=
  { id := "dev", nameDisplay := "A", platform := "android",
    ip := "10.0.0.1", connectedAt := "t1", lastSeen := "t1" }

/-- A panel state holding the demo registry and nothing else. -/
def demoPanel : PanelState :=
  { registry := demoRegistry, folders := [], selectedHist := none, events := [] }

/-- A successful command response whose payload names a server-side file. -/
def demoResp : ResponseData :=
  { command := some "cmd", status := some "success",
    payload := [("filename_on_server", PyVal.vstr "f.png")] }

/-! ### Helper lemmas -/

theorem sanitize_data (raw : String) : (sanitize raw).data = raw.data.map sanitizeChar := rfl

theorem allowedChar_sanitizeChar (c : Char) : allowedChar (sanitizeChar c) = true := by
  unfold sanitizeChar
  split
  · assumption
  · decide

theorem mem_sanitize_allowed {raw : String} {c : Char}
    (h : c ∈ (sanitize raw).data) : allowedChar c = true := by
  rw [sanitize_data] at h
  obtain ⟨c2, _, rfl⟩ := List.mem_map.mp h
  exact allowedChar_sanitizeChar c2

theorem digit_allowed {c : Char} (h : c.isDigit = true) : allowedChar c = true := by
  simp [allowedChar, pyIsAlnum, Char.isAlphanum, h]

theorem unidentified_prefix_allowed :
    ∀ c ∈ ("unidentified_device_" : String).data, allowedChar c = true := by decide

theorem append_ne_empty_of_left {a b : String} (h : a.data ≠ []) : a ++ b ≠ "" := by
  intro heq
  apply h
  have hd := congrArg String.data heq
  rw [String.data_append] at hd
  exact (List.append_eq_nil.mp hd).1

theorem sanitize_ne_empty {raw : String} (h : raw ≠ "") : sanitize raw ≠ "" := by
  intro heq
  apply h
  have hd := congrArg String.data heq
  rw [sanitize_data] at hd
  exact String.ext (List.map_eq_nil_iff.mp hd)

/-! ### C1 -/

/-- C1 (counterexample): the raw identifier made of five copies of the
letter U+00E9 is accepted by the initial-data upload (it is a string of
length at least 5), yet the sanitized key keeps that letter, which lies
outside the claimed ASCII class `[A-Za-z0-9_.-]` — Python `str.isalnum` is
not ASCII-only. -/
theorem sanitize_ascii_claim_counterexample :
    'é' ∈ (uploadInitialDataKey
      { deviceId := some (PyVal.vstr "ééééé"), model := none, deviceName := none }
      "20250101000000000000").data ∧
    asciiAllowedChar 'é' = false := by decide

/-- C1 (amended): for every initial-data upload (with the generated
timestamp a digit string, as `strftime` produces) and for every accepted
command-file upload, the sanitized key is non-empty and every one of its
characters either satisfies Python `str.isalnum` or is an underscore, a
hyphen or a dot; other characters are replaced by an underscore (the
substitution `sanitizeChar`). -/
theorem sanitize_key_allowed_charset :
    ∀ (p : InitialPayload) (ts : String) (dId : Option String) (k : String),
      (∀ c ∈ ts.data, c.isDigit = true) →
      (uploadInitialDataKey p ts ≠ "" ∧
        ∀ c ∈ (uploadInitialDataKey p ts).data, allowedChar c = true) ∧
      (uploadCommandFileKey dId = some k →
        k ≠ "" ∧ ∀ c ∈ k.data, allowedChar c = true) := by
  intro p ts dId k hts
  constructor
  · unfold uploadInitialDataKey
    dsimp only
    split
    · constructor
      · exact append_ne_empty_of_left (by decide)
      · intro c hc
        rw [String.data_append] at hc
        rcases List.mem_append.mp hc with h | h
        · exact unidentified_prefix_allowed c h
        · exact digit_allowed (hts c h)
    · rename_i h
      push_neg at h
      exact ⟨h.1, fun c hc => mem_sanitize_allowed hc⟩
  · intro hk
    unfold uploadCommandFileKey at hk
    dsimp only at hk
    split at hk
    · exact absurd hk (by simp)
    · rename_i hd
      obtain rfl : sanitize (dId.getD "") = k := Option.some.inj hk
      exact ⟨sanitize_ne_empty hd, fun c hc => mem_sanitize_allowed hc⟩

/-- C1 (witness): the amended theorem evaluated at a concrete payload,
timestamp and command-file identifier. -/
theorem sanitize_key_allowed_charset_witness :
    uploadInitialDataKey
      { deviceId := some (PyVal.vstr "abcdef"), model := none, deviceName := none }
      "20250101" ≠ "" ∧
    ("dev_1" : String) ≠ "" ∧ (∀ c ∈ ("dev_1" : String).data, allowedChar c = true) := by
  have h := sanitize_key_allowed_charset
    { deviceId := some (PyVal.vstr "abcdef"), model := none, deviceName := none }
    "20250101" (some "dev_1") "dev_1" (by decide)
  have h2 := h.2 (by decide)
  exact ⟨h.1.1, h2.1, h2.2⟩

/-! ### C5 -/

/-- C5: a registration event whose payload lacks a device identifier is
rejected: the registry is returned unchanged (no session created or
modified), a registration-failed signal is emitted to that same handle, and
the engine does not close the connection. -/
theorem register_missing_deviceId_rejected :
    ∀ (r : Registry) (sid ip now : String) (deviceName platform selectedHist : Option String),
      handleRegisterDevice r sid ip now none deviceName platform selectedHist =
        (r, [Emit.registrationFailed sid], false) := by
  intros
  rfl

/-! ### C8 -/

/-- C8: a heartbeat for a handle absent from the registry reports the
handle unknown (the Bool branch value is false), leaves the registry
unchanged (in particular creates no session), and emits a
request-registration signal back to that same handle. -/
theorem heartbeat_unknown_handle :
    ∀ (r : Registry) (sid now : String),
      lookupSid r sid = none →
      handleDeviceHeartbeat r sid now = (r, [Emit.requestRegistrationInfo sid], false) := by
  intro r sid now h
  simp [handleDeviceHeartbeat, h]

/-- C8 (witness): the unknown-handle heartbeat behaviour at a concrete
registry and handle. -/
theorem heartbeat_unknown_handle_witness :
    handleDeviceHeartbeat [] "h1" "t0" = ([], [Emit.requestRegistrationInfo "h1"], false) :=
  heartbeat_unknown_handle [] "h1" "t0" rfl

/-! ### C10 -/

/-- C10: when the initial-data deviceId field is absent, not a string, or a
string shorter than five characters, the raw identifier is derived as
model and device name joined by an underscore, each field defaulting when
absent. -/
theorem initialData_deviceId_fallback :
    ∀ (p : InitialPayload),
      (p.deviceId = none ∨
       (∃ v, p.deviceId = some v ∧ v.isStr = false) ∨
       (∃ s, p.deviceId = some (PyVal.vstr s) ∧ s.length < 5)) →
      rawDeviceId p =
        (p.model.getD "unknown_model") ++ "_" ++ (p.deviceName.getD "unknown_device") := by
  intro p h
  unfold rawDeviceId
  rcases h with h | ⟨v, hv, hstr⟩ | ⟨s, hs, hlen⟩
  · rw [h]
    simp [PyVal.truthy]
  · rw [hv]
    simp only [Option.getD_some]
    rw [if_pos (Or.inr (Or.inl hstr))]
  · rw [hs]
    simp only [Option.getD_some, PyVal.strLen]
    rw [if_pos (Or.inr (Or.inr hlen))]

/-- C10 (witness): the fallback at a concrete too-short identifier. -/
theorem initialData_deviceId_fallback_witness :
    rawDeviceId { deviceId := some (PyVal.vstr "abc"), model := some "Pixel", deviceName := none } =
      "Pixel" ++ "_" ++ "unknown_device" :=
  initialData_deviceId_fallback _ (Or.inr (Or.inr ⟨"abc", rfl, by decide⟩))

/-! ### Registry lemmas -/

theorem lookupSid_cons (q : String × ClientInfo) (rest : Registry) (sid : String) :
    lookupSid (q :: rest) sid = if q.1 = sid then some q.2 else lookupSid rest sid := by
  by_cases h : q.1 = sid
  · simp [lookupSid, List.find?_cons, h]
  · simp [lookupSid, List.find?_cons, h]

theorem lookupSid_touch_self (r : Registry) (sid now : String) :
    lookupSid (touchLastSeen now r sid) sid =
      (lookupSid r sid).map (fun info => { info with lastSeen := now }) := by
  induction r with
  | nil => rfl
  | cons p rest ih =>
    by_cases h : p.1 = sid
    · simp [touchLastSeen, h, lookupSid_cons]
    · simp only [touchLastSeen, if_neg h, lookupSid_cons]
      exact ih

theorem lookupSid_touch_other (r : Registry) (sid now sid2 : String) (hne : ¬ sid2 = sid) :
    lookupSid (touchLastSeen now r sid) sid2 = lookupSid r sid2 := by
  induction r with
  | nil => rfl
  | cons p rest ih =>
    by_cases h : p.1 = sid
    · have hp2 : ¬ p.1 = sid2 := by
        rw [h]
        intro hc
        exact hne hc.symm
      simp only [touchLastSeen, if_pos h, lookupSid_cons]
      rw [if_neg hp2, if_neg hp2]
    · simp only [touchLastSeen, if_neg h, lookupSid_cons]
      by_cases hq : p.1 = sid2
      · rw [if_pos hq, if_pos hq]
      · rw [if_neg hq, if_neg hq]
        exact ih

theorem touch_keys (r : Registry) (sid now : String) :
    (touchLastSeen now r sid).map Prod.fst = r.map Prod.fst := by
  induction r with
  | nil => rfl
  | cons p rest ih =>
    by_cases h : p.1 = sid
    · simp [touchLastSeen, h]
    · simp [touchLastSeen, h, ih]

/-! ### C3 -/

/-- C3 (counterexample): two live sessions both carry device identifier
"dev"; sidB is registered after sidA, so the most recently registered match
is sidB, yet the lookup returns sidA (the loop stops at the first match in
dict insertion order). -/
theorem findSidByDeviceId_not_most_recent :
    (lookupSid demoRegistry "sidB").map ClientInfo.id = some "dev" ∧
    findSidByDeviceId demoRegistry "dev" = some "sidA" ∧
    ¬ findSidByDeviceId demoRegistry "dev" = some "sidB" := by decide

/-- C3 (amended): the secondary lookup by device identifier returns the
earliest-registered matching session (the first match in dict insertion
order), and returns empty exactly when no live session matches. -/
theorem findSid_cons (q : String × ClientInfo) (rest : Registry) (devId : String) :
    findSidByDeviceId (q :: rest) devId =
      if q.2.id = devId then some q.1 else findSidByDeviceId rest devId := by
  by_cases h : q.2.id = devId
  · simp [findSidByDeviceId, List.find?_cons, h]
  · simp [findSidByDeviceId, List.find?_cons, h]

theorem findSidByDeviceId_first_match :
    ∀ (r : Registry) (devId : String),
      findSidByDeviceId r devId = firstRegisteredMatch r devId ∧
      (findSidByDeviceId r devId = none ↔ ∀ p ∈ r, ¬ p.2.id = devId) := by
  intro r devId
  induction r with
  | nil => simp [findSidByDeviceId, firstRegisteredMatch]
  | cons p rest ih =>
    have hfrm : firstRegisteredMatch (p :: rest) devId =
        if p.2.id = devId then some p.1 else firstRegisteredMatch rest devId := rfl
    rw [findSid_cons, hfrm]
    by_cases h : p.2.id = devId
    · rw [if_pos h, if_pos h]
      refine ⟨rfl, ?_⟩
      constructor
      · intro hc
        exact Option.noConfusion hc
      · intro hall
        exact absurd h (hall p (List.mem_cons_self p rest))
    · rw [if_neg h, if_neg h]
      refine ⟨ih.1, ?_⟩
      rw [ih.2]
      constructor
      · intro hall q hq
        rcases List.mem_cons.mp hq with rfl | hq2
        · exact h
        · exact hall q hq2
      · intro hall q hq
        exact hall q (List.mem_cons_of_mem p hq)

/-- C3 (witness): the amended characterization evaluated at the demo
registry. -/
theorem findSidByDeviceId_first_match_witness :
    findSidByDeviceId demoRegistry "other" = firstRegisteredMatch demoRegistry "other" :=
  (findSidByDeviceId_first_match demoRegistry "other").1

/-! ### C4 -/

/-- C4: dispatching a command to a handle absent from the registry fails
(returns false, the not-connected outcome) and performs no transport send;
dispatching to a present handle succeeds and forwards exactly the given
command name and argument bag to exactly that handle. -/
theorem dispatch_requires_registered_handle :
    ∀ (r : Registry) (sid command : String) (bag : ArgsBag),
      (lookupSid r sid = none →
        (sendCommandToClient r sid command (some bag)).1 = false ∧
        transportSends (sendCommandToClient r sid command (some bag)).2 = []) ∧
      (∀ info, lookupSid r sid = some info →
        (sendCommandToClient r sid command (some bag)).1 = true ∧
        transportSends (sendCommandToClient r sid command (some bag)).2 =
          [(sid, command, bag)]) := by
  intro r sid command bag
  constructor
  · intro h
    simp [sendCommandToClient, h, transportSends]
  · intro info h
    simp [sendCommandToClient, h, transportSends]

/-- C4 (witness): dispatch evaluated at the demo registry, once for an
unknown handle and once for a registered one. -/
theorem dispatch_requires_registered_handle_witness :
    (sendCommandToClient demoRegistry "zzz" "take_screenshot" (some [])).1 = false ∧
    transportSends (sendCommandToClient demoRegistry "zzz" "take_screenshot" (some [])).2 = [] ∧
    (sendCommandToClient demoRegistry "sidA" "take_screenshot" (some [])).1 = true ∧
    transportSends (sendCommandToClient demoRegistry "sidA" "take_screenshot" (some [])).2 =
      [("sidA", "take_screenshot", [])] := by
  have h1 := (dispatch_requires_registered_handle demoRegistry "zzz" "take_screenshot" []).1
    (by decide)
  have h2 := (dispatch_requires_registered_handle demoRegistry "sidA" "take_screenshot" []).2
    demoInfoA (by decide)
  exact ⟨h1.1, h1.2, h2.1, h2.2⟩

/-! ### C6 -/

/-- C6: a heartbeat for a handle present in the registry updates only that
session's last-activity timestamp: the session keeps its device identifier,
display name, platform, origin address and connect timestamp, every other
handle maps to an unchanged session, and the set and order of handles is
unchanged. -/
theorem heartbeat_updates_only_lastSeen :
    ∀ (r : Registry) (sid now : String) (info : ClientInfo),
      lookupSid r sid = some info →
      lookupSid (handleDeviceHeartbeat r sid now).1 sid =
        some { id := info.id, nameDisplay := info.nameDisplay, platform := info.platform,
               ip := info.ip, connectedAt := info.connectedAt, lastSeen := now } ∧
      (∀ sid2, ¬ sid2 = sid →
        lookupSid (handleDeviceHeartbeat r sid now).1 sid2 = lookupSid r sid2) ∧
      (handleDeviceHeartbeat r sid now).1.map Prod.fst = r.map Prod.fst := by
  intro r sid now info h
  have hh : (handleDeviceHeartbeat r sid now).1 = touchLastSeen now r sid := by
    simp [handleDeviceHeartbeat, h]
  rw [hh]
  refine ⟨?_, ?_, ?_⟩
  · rw [lookupSid_touch_self, h]
    rfl
  · intro sid2 hne
    exact lookupSid_touch_other r sid now sid2 hne
  · exact touch_keys r sid now

/-- C6 (witness): the frame property of a heartbeat evaluated on the demo
registry. -/
theorem heartbeat_updates_only_lastSeen_witness :
    lookupSid (handleDeviceHeartbeat demoRegistry "sidA" "t9").1 "sidA" =
      some { id := "dev", nameDisplay := "A", platform := "android",
             ip := "10.0.0.1", connectedAt := "t1", lastSeen := "t9" } ∧
    lookupSid (handleDeviceHeartbeat demoRegistry "sidA" "t9").1 "sidB" =
      lookupSid demoRegistry "sidB" ∧
    (handleDeviceHeartbeat demoRegistry "sidA" "t9").1.map Prod.fst =
      demoRegistry.map Prod.fst := by
  have h := heartbeat_updates_only_lastSeen demoRegistry "sidA" "t9" demoInfoA (by decide)
  exact ⟨h.1, h.2.1 "sidB" (by decide), h.2.2⟩

/-! ### C7 -/

/-- C7: a command response on a handle resolves to the registered device
identifier when the handle is in the registry and to the placeholder
"SID_" followed by the handle otherwise; in both cases the response (with
its command name, status and payload) is appended to the surfaced responses,
never dropped. -/
theorem commandResponse_resolves_and_records :
    ∀ (st : PanelState) (sid : String) (d : ResponseData),
      (∀ info, lookupSid st.registry sid = some info →
        resolveDeviceId st.registry sid = info.id) ∧
      (lookupSid st.registry sid = none →
        resolveDeviceId st.registry sid = "SID_" ++ sid) ∧
      (resolveDeviceId st.registry sid, d.command.getD "unknown_command",
        d.status.getD "unknown", d.payload)
        ∈ responsesShown (handleCommandResponse st sid d) := by
  intro st sid d
  refine ⟨?_, ?_, ?_⟩
  · intro info h
    simp [resolveDeviceId, h]
  · intro h
    simp [resolveDeviceId, h]
  · simp only [handleCommandResponse, responsesShown, List.filterMap_append]
    apply List.mem_append_right
    simp only [handleCommandResponseEvents]
    split <;> simp [respOf]

/-- C7 (witness): resolution and recording evaluated on the demo panel for
a registered handle and an unknown one. -/
theorem commandResponse_resolves_and_records_witness :
    resolveDeviceId demoPanel.registry "sidA" = "dev" ∧
    resolveDeviceId demoPanel.registry "zzz" = "SID_" ++ "zzz" ∧
    (resolveDeviceId demoPanel.registry "sidA", "cmd", "success", demoResp.payload)
      ∈ responsesShown (handleCommandResponse demoPanel "sidA" demoResp) := by
  refine ⟨?_, ?_, ?_⟩
  · exact (commandResponse_resolves_and_records demoPanel "sidA" demoResp).1 demoInfoA (by decide)
  · exact (commandResponse_resolves_and_records demoPanel "zzz" demoResp).2.1 (by decide)
  · exact (commandResponse_resolves_and_records demoPanel "sidA" demoResp).2.2

/-! ### C2 -/

theorem folderFiles_cons (q : String × List String) (rest : List (String × List String))
    (dev : String) :
    folderFiles (q :: rest) dev = if q.1 = dev then q.2 else folderFiles rest dev := by
  by_cases h : q.1 = dev
  · simp [folderFiles, List.find?_cons, h]
  · simp [folderFiles, List.find?_cons, h]

theorem mem_folderFiles_addFile (fs : List (String × List String)) (dev fname : String) :
    fname ∈ folderFiles (addFile fs dev fname) dev := by
  induction fs with
  | nil => simp [addFile, folderFiles_cons]
  | cons p rest ih =>
    by_cases h : p.1 = dev
    · simp [addFile, h, folderFiles_cons]
    · simpa [addFile, h, folderFiles_cons] using ih

theorem upload_events_respFree (fs : List (String × List String)) (sel : Option String)
    (dId cref : Option String) (file : Option (String × String)) (ts : String) :
    List.filterMap respOf (uploadCommandFileCore fs sel dId cref file ts).2.1 = [] := by
  cases file with
  | none =>
    unfold uploadCommandFileCore
    dsimp only
    by_cases h : dId.getD "" = ""
    · rw [if_pos h]
      rfl
    · rw [if_neg h]
      dsimp only
      split <;> simp [respOf]
  | some bp =>
    obtain ⟨base, ext⟩ := bp
    unfold uploadCommandFileCore
    dsimp only
    by_cases h : dId.getD "" = ""
    · rw [if_pos h]
      rfl
    · rw [if_neg h]
      dsimp only
      split <;> split <;> simp [respOf]

/-- C2: ingesting a file delivery and ingesting the corresponding command
response commute: processing them in either order yields the same final
folders (historical artifact storage), registry, selection, and the same
set of surfaced command responses; moreover the response (with its status)
is always among the surfaced responses, and on the success path the stored
artifact lands in the device's folder in both orders, with the upload
returning the same server-side filename. -/
theorem fileDelivery_commandResponse_commute :
    ∀ (st : PanelState) (sid : String) (d : ResponseData) (dId cref : Option String)
      (file : Option (String × String)) (ts : String),
      (handleCommandResponse (uploadCommandFile st dId cref file ts).1 sid d).folders =
        (uploadCommandFile (handleCommandResponse st sid d) dId cref file ts).1.folders ∧
      (handleCommandResponse (uploadCommandFile st dId cref file ts).1 sid d).registry =
        (uploadCommandFile (handleCommandResponse st sid d) dId cref file ts).1.registry ∧
      (handleCommandResponse (uploadCommandFile st dId cref file ts).1 sid d).selectedHist =
        (uploadCommandFile (handleCommandResponse st sid d) dId cref file ts).1.selectedHist ∧
      responsesShown (handleCommandResponse (uploadCommandFile st dId cref file ts).1 sid d) =
        responsesShown (uploadCommandFile (handleCommandResponse st sid d) dId cref file ts).1 ∧
      (resolveDeviceId st.registry sid, d.command.getD "unknown_command",
        d.status.getD "unknown", d.payload)
        ∈ responsesShown (handleCommandResponse (uploadCommandFile st dId cref file ts).1 sid d) ∧
      (∀ did base ext, dId = some did → ¬ did = "" → file = some (base, ext) →
        (uploadCommandFile st dId cref file ts).2 =
          some (commandFileName (cref.getD "unknown_cmd_ref") base ext ts) ∧
        commandFileName (cref.getD "unknown_cmd_ref") base ext ts ∈
          folderFiles (handleCommandResponse (uploadCommandFile st dId cref file ts).1 sid d).folders
            (sanitize did) ∧
        commandFileName (cref.getD "unknown_cmd_ref") base ext ts ∈
          folderFiles (uploadCommandFile (handleCommandResponse st sid d) dId cref file ts).1.folders
            (sanitize did)) := by
  intro st sid d dId cref file ts
  refine ⟨rfl, rfl, rfl, ?_, ?_, ?_⟩
  · show List.filterMap respOf
        ((st.events ++ (uploadCommandFileCore st.folders st.selectedHist dId cref file ts).2.1) ++
          handleCommandResponseEvents st.registry st.selectedHist sid d) =
      List.filterMap respOf
        ((st.events ++ handleCommandResponseEvents st.registry st.selectedHist sid d) ++
          (uploadCommandFileCore st.folders st.selectedHist dId cref file ts).2.1)
    rw [List.filterMap_append, List.filterMap_append, List.filterMap_append,
      List.filterMap_append, upload_events_respFree]
    simp
  · show (resolveDeviceId st.registry sid, d.command.getD "unknown_command",
        d.status.getD "unknown", d.payload) ∈
      List.filterMap respOf
        ((st.events ++ (uploadCommandFileCore st.folders st.selectedHist dId cref file ts).2.1) ++
          handleCommandResponseEvents st.registry st.selectedHist sid d)
    rw [List.filterMap_append]
    apply List.mem_append_right
    simp only [handleCommandResponseEvents]
    split <;> simp [respOf]
  · intro did base ext h1 h2 h3
    subst h1
    subst h3
    have hval : (uploadCommandFileCore st.folders st.selectedHist (some did) cref
        (some (base, ext)) ts).2.2 =
        some (commandFileName (cref.getD "unknown_cmd_ref") base ext ts) := by
      unfold uploadCommandFileCore
      dsimp only
      rw [if_neg (show ¬ (some did).getD "" = "" from h2)]
    have hfs : (uploadCommandFileCore st.folders st.selectedHist (some did) cref
        (some (base, ext)) ts).1 =
        addFile (ensureFolder st.folders (sanitize did)) (sanitize did)
          (commandFileName (cref.getD "unknown_cmd_ref") base ext ts) := by
      unfold uploadCommandFileCore
      dsimp only
      rw [if_neg (show ¬ (some did).getD "" = "" from h2)]
      rfl
    refine ⟨hval, ?_, ?_⟩
    · show commandFileName (cref.getD "unknown_cmd_ref") base ext ts ∈
        folderFiles (uploadCommandFileCore st.folders st.selectedHist (some did) cref
          (some (base, ext)) ts).1 (sanitize did)
      rw [hfs]
      exact mem_folderFiles_addFile _ _ _
    · show commandFileName (cref.getD "unknown_cmd_ref") base ext ts ∈
        folderFiles (uploadCommandFileCore st.folders st.selectedHist (some did) cref
          (some (base, ext)) ts).1 (sanitize did)
      rw [hfs]
      exact mem_folderFiles_addFile _ _ _

/-- C2 (witness): commutation contents evaluated at a concrete state, file
delivery and successful command response. -/
theorem fileDelivery_commandResponse_commute_witness :
    (uploadCommandFile demoPanel (some "dev1") (some "ref1") (some ("f", ".png")) "20250101").2 =
      some (commandFileName "ref1" "f" ".png" "20250101") ∧
    commandFileName "ref1" "f" ".png" "20250101" ∈
      folderFiles (handleCommandResponse
        (uploadCommandFile demoPanel (some "dev1") (some "ref1") (some ("f", ".png")) "20250101").1
        "sidA" demoResp).folders (sanitize "dev1") ∧
    commandFileName "ref1" "f" ".png" "20250101" ∈
      folderFiles (uploadCommandFile (handleCommandResponse demoPanel "sidA" demoResp)
        (some "dev1") (some "ref1") (some ("f", ".png")) "20250101").1.folders
        (sanitize "dev1") :=
  (fileDelivery_commandResponse_commute demoPanel "sidA" demoResp
    (some "dev1") (some "ref1") (some ("f", ".png")) "20250101").2.2.2.2.2
    "dev1" "f" ".png" rfl (by decide) rfl

end C2Panel
